import Mathlib

/-!
Verification of `istioctl/pkg/writer/envoy/configdump/listener.go`
(listener-state inspector): a shallow embedding of the listener data
model, the protocol classifier, the listener filter, the extraction
routine and the two renderers, together with theorems settling the
specification's claims about them.

Modelling conventions:
* Go slices become `List`, Go strings become `String`.
* `uint32` ports become `Nat`; only equality on ports occurs in this
  code, so no modular arithmetic arises.
* Nil-able protobuf pointers become `Option`.
* Fallible operations return `Except String α`, the error string being
  the `fmt.Errorf` text (with `%v` holes concatenated).
* The external protobuf unmarshaller (`ptypes.UnmarshalAny`, applied
  after the `TypeUrl` is forced to the canonical v3 listener type) is
  outside this repository; a type-tagged opaque payload is therefore
  modelled by the result that unmarshalling it produces.
-/

/-- `HTTPListener` identifies a listener as being of HTTP type by the
presence of an HTTP connection manager filter. -/
def HTTPListener : String := "envoy.http_connection_manager"

/-- `TCPListener` identifies a listener as being of TCP type by the
presence of TCP proxy filter. -/
def TCPListener : String := "envoy.tcp_proxy"

/-- Modelled from the spec: the well-known "black-hole cluster" marker
string (`util.BlackHoleCluster`, defined in `pilot/pkg/networking/util`,
which is not part of the embedded sources). Its concrete value is
irrelevant to every claim; only substring membership is tested. -/
def BlackHoleCluster : String := "BlackHoleCluster"

/-- Does `needle` occur as a leading segment of `hay`?
(character-list version of Go's prefix test used by `strContains`). -/
def charsLead : List Char → List Char → Bool
  | [], _ => true
  | _ :: _, [] => false
  | a :: as, b :: bs => a == b && charsLead as bs

/-- Does `needle` occur somewhere inside `hay`? -/
def charsWithin (needle : List Char) : List Char → Bool
  | [] => charsLead needle []
  | h :: t => charsLead needle (h :: t) || charsWithin needle t

/-- Model of Go `strings.Contains hay needle`. -/
def strContains (hay needle : String) : Bool :=
  charsWithin needle.data hay.data

/-- Model of Go `strings.EqualFold`: case-insensitive string equality
(folding each character to lower case before comparing). -/
def equalFold (s t : String) : Bool :=
  s.data.map Char.toLower == t.data.map Char.toLower

/-- A named filter inside a filter chain: a protocol-handler identifier
and the opaque typed configuration. `typedConfig` models
`GetTypedConfig().GetValue()` rendered as a string; `none` models a nil
`TypedConfig` message (whose nil-safe getter yields empty bytes). -/
structure EnvoyFilter where
  name : String
  typedConfig : Option String
deriving Repr, DecidableEq

/-- Nil-safe `string(filter.GetTypedConfig().GetValue())`. -/
def EnvoyFilter.typedConfigValue (f : EnvoyFilter) : String :=
  f.typedConfig.getD ""

/-- An ordered sequence of filters attached to a listener. -/
structure FilterChain where
  filters : List EnvoyFilter
deriving Repr, DecidableEq

/-- The socket address a listener is bound to. `portValue` models the
nil-safe `GetPortValue()` getter. -/
structure SocketAddress where
  address : String
  portValue : Nat
deriving Repr, DecidableEq

/-- A decoded listener record: bound socket address plus the ordered
filter chains. (`l.Address.GetSocketAddress()` is modelled as always
present, as it is on every listener this inspector handles; the Go code
would dereference nil otherwise.) -/
structure Listener where
  address : SocketAddress
  filterChains : List FilterChain
deriving Repr, DecidableEq

/-- `retrieveListenerAddress`: the listener's bound socket address. -/
def retrieveListenerAddress (l : Listener) : String :=
  l.address.address

/-- `retrieveListenerPort`: the listener's bound port. -/
def retrieveListenerPort (l : Listener) : Nat :=
  l.address.portValue

/-- One step of the counting loop of `retrieveListenerType`: bump the
HTTP or the qualifying-TCP counter according to the filter's name. -/
def countFilterStep (acc : Nat × Nat) (f : EnvoyFilter) : Nat × Nat :=
  if f.name == HTTPListener then
    (acc.1 + 1, acc.2)
  else if f.name == TCPListener then
    if !(strContains f.typedConfigValue BlackHoleCluster) then
      (acc.1, acc.2 + 1)
    else acc
  else acc

/-- The `(nHTTP, nTCP)` pair computed by the nested loops of
`retrieveListenerType`. -/
def listenerCounts (l : Listener) : Nat × Nat :=
  l.filterChains.foldl
    (fun acc filterChain => filterChain.filters.foldl countFilterStep acc)
    (0, 0)

/-- `retrieveListenerType` classifies a Listener as
HTTP|TCP|HTTP+TCP|UNKNOWN. -/
def retrieveListenerType (l : Listener) : String :=
  let c := listenerCounts l
  if c.1 > 0 then
    if c.2 == 0 then "HTTP" else "HTTP+TCP"
  else if c.2 > 0 then "TCP"
  else "UNKNOWN"

/-- `ListenerFilter` is used to pass filter information into listener
based config writer print functions. (Go field `Type` is a Lean keyword,
hence the quoted name.) -/
structure ListenerFilter where
  Address : String
  Port : Nat
  «Type» : String
deriving Repr, DecidableEq

/-- `Verify` returns true if the passed listener matches the filter
fields. -/
def ListenerFilter.Verify (lf : ListenerFilter) (l : Listener) : Bool :=
  if lf.Address == "" && lf.Port == 0 && lf.«Type» == "" then
    true
  else if lf.Address != "" && !(equalFold (retrieveListenerAddress l) lf.Address) then
    false
  else if lf.Port != 0 && retrieveListenerPort l != lf.Port then
    false
  else if lf.«Type» != "" && !(equalFold (retrieveListenerType l) lf.«Type») then
    false
  else
    true

/-- The filters of all filter chains of a listener, in order ("all
filters in all filter chains", spec wording, for the refinement
statements about the classifier's counters). -/
def allFilters (l : Listener) : List EnvoyFilter :=
  l.filterChains.foldr (fun c acc => c.filters ++ acc) []

/-- Spec wording: a filter named `envoy.http_connection_manager`
increments http-count. -/
def isHTTPFilter (f : EnvoyFilter) : Bool :=
  f.name == HTTPListener

/-- Spec wording: a filter named `envoy.tcp_proxy` whose typed config
does not contain the black-hole marker increments tcp-count. -/
def isQualifyingTCPFilter (f : EnvoyFilter) : Bool :=
  f.name == TCPListener && !(strContains f.typedConfigValue BlackHoleCluster)

/-- Spec-side http-count: number of HTTP connection-manager filters over
all chains. -/
def httpCount (l : Listener) : Nat :=
  (allFilters l).countP isHTTPFilter

/-- Spec-side tcp-count: number of non-black-hole TCP proxy filters over
all chains. -/
def tcpCount (l : Listener) : Nat :=
  (allFilters l).countP isQualifyingTCPFilter

/-- A type-tagged opaque listener payload (`*any.Any`). The extractor
forces its `TypeUrl` to the canonical v3 listener type and then hands it
to the external unmarshaller `ptypes.UnmarshalAny`; that whole step is
outside this repository, so the payload is modelled by the outcome the
unmarshaller produces for it: the decoded listener, or the error text. -/
structure AnyListener where
  decodeResult : Except String Listener
deriving Repr

/-- A dynamic listener entry's `ActiveState` (nil-able `listener`
payload inside). -/
structure ActiveState where
  listener : Option AnyListener
deriving Repr

/-- A dynamic listener entry of the listener config dump (nil-able
`ActiveState`). -/
structure DynamicListenerEntry where
  activeState : Option ActiveState
deriving Repr

/-- A static listener entry of the listener config dump (nil-able
`listener` payload). -/
structure StaticListenerEntry where
  listener : Option AnyListener
deriving Repr

/-- The listener section of a config dump: dynamic entries and static
entries. -/
structure ListenerConfigDump where
  dynamicListeners : List DynamicListenerEntry
  staticListeners : List StaticListenerEntry
deriving Repr

/-- Modelled from the spec: the config-dump wrapper's
`GetListenerConfigDump` accessor lives in `configdump/wrapper.go`, not
among the embedded sources; per the spec it either exposes the listener
section or fails with a retrieval error ("the dump object does not
expose the expected listener section shape"). The wrapper is therefore
modelled by that accessor's outcome. -/
structure ConfigDumpWrapper where
  listenerSection : Except String ListenerConfigDump
deriving Repr

/-- `GetListenerConfigDump` on the wrapper (see `ConfigDumpWrapper`). -/
def ConfigDumpWrapper.GetListenerConfigDump (cd : ConfigDumpWrapper) :
    Except String ListenerConfigDump :=
  cd.listenerSection

/-- The config writer: holds the (possibly unset) config dump. The
output stream `Stdout` is not part of the state here; the print
functions below return the text they would write. -/
structure ConfigWriter where
  configDump : Option ConfigDumpWrapper
deriving Repr

/-- The dynamic-listener half of the extraction loop: skip entries whose
`ActiveState` or whose `ActiveState.Listener` is nil, unmarshal the
rest, failing fast with the wrapped error on the first decode failure. -/
def processDynamicListeners : List DynamicListenerEntry → Except String (List Listener)
  | [] => .ok []
  | d :: rest =>
    match d.activeState.bind ActiveState.listener with
    | none => processDynamicListeners rest
    | some anyL =>
      match anyL.decodeResult with
      | .error e => .error ("unmarshal listener: " ++ e)
      | .ok decoded =>
        match processDynamicListeners rest with
        | .error e => .error e
        | .ok tail => .ok (decoded :: tail)

/-- The static-listener half of the extraction loop: skip entries whose
`Listener` payload is nil, unmarshal the rest, failing fast with the
wrapped error on the first decode failure. -/
def processStaticListeners : List StaticListenerEntry → Except String (List Listener)
  | [] => .ok []
  | s :: rest =>
    match s.listener with
    | none => processStaticListeners rest
    | some anyL =>
      match anyL.decodeResult with
      | .error e => .error ("unmarshal listener: " ++ e)
      | .ok decoded =>
        match processStaticListeners rest with
        | .error e => .error e
        | .ok tail => .ok (decoded :: tail)

/-- `retrieveSortedListenerSlice`: extract the decoded listeners from
the config dump, dynamic entries first and static entries second, in
encounter order. -/
def ConfigWriter.retrieveSortedListenerSlice (c : ConfigWriter) :
    Except String (List Listener) :=
  match c.configDump with
  | none => .error "config writer has not been primed"
  | some cd =>
    match cd.GetListenerConfigDump with
    | .error e => .error ("listener dump: " ++ e)
    | .ok listenerDump =>
      match processDynamicListeners listenerDump.dynamicListeners with
      | .error e => .error e
      | .ok dyn =>
        match processStaticListeners listenerDump.staticListeners with
        | .error e => .error e
        | .ok stat =>
          let listeners := dyn ++ stat
          if listeners.isEmpty then .error "no listeners found"
          else .ok listeners

/-- `setupListenerConfigWriter`: retrieve the listener slice (the
tabwriter it also builds is modelled by the line list the summary
printer returns). -/
def ConfigWriter.setupListenerConfigWriter (c : ConfigWriter) :
    Except String (List Listener) :=
  c.retrieveSortedListenerSlice

/-- One summary row: `address \t port \t type` as written by
`fmt.Fprintf(w, "%v\t%v\t%v\n", ...)`. -/
def summaryRow (l : Listener) : String :=
  retrieveListenerAddress l ++ "\t" ++ toString (retrieveListenerPort l)
    ++ "\t" ++ retrieveListenerType l

/-- The row loop of `PrintListenerSummary`: one row per listener passing
the filter, in order. -/
def summaryRows (filter : ListenerFilter) : List Listener → List String
  | [] => []
  | l :: rest =>
    if filter.Verify l then summaryRow l :: summaryRows filter rest
    else summaryRows filter rest

/-- `PrintListenerSummary` prints a summary of the relevant listeners in
the config dump: the header line, then the row loop. The returned list
is the sequence of lines handed to the tabwriter. -/
def ConfigWriter.PrintListenerSummary (c : ConfigWriter) (filter : ListenerFilter) :
    Except String (List String) :=
  match c.setupListenerConfigWriter with
  | .error e => .error e
  | .ok listeners => .ok ("ADDRESS\tPORT\tTYPE" :: summaryRows filter listeners)

/-- The filtering loop of `PrintListenerDump`: collect the listeners
passing the filter, in order. -/
def filteredListenersOf (filter : ListenerFilter) : List Listener → List Listener
  | [] => []
  | l :: rest =>
    if filter.Verify l then l :: filteredListenersOf filter rest
    else filteredListenersOf filter rest

/-- `PrintListenerDump` prints the relevant listeners in the config dump
as one indented structured block. `marshalIndent` models the external
`json.MarshalIndent` serializer; the code calls it with the 4-space
indent string and prints its output followed by a newline
(`fmt.Fprintln`), or wraps its error having printed nothing. The result
is the full text written to `Stdout`. -/
def ConfigWriter.PrintListenerDump
    (marshalIndent : String → List Listener → Except String String)
    (c : ConfigWriter) (filter : ListenerFilter) : Except String String :=
  match c.setupListenerConfigWriter with
  | .error e => .error e
  | .ok listeners =>
    match marshalIndent "    " (filteredListenersOf filter listeners) with
    | .error e => .error ("failed to marshal listeners: " ++ e)
    | .ok out => .ok (out ++ "\n")

/-- Spec-side view of a dynamic entry's contribution on a fully
successful extraction: its decoded listener when the payload is present
and decodes, nothing when the payload is absent. -/
def dynDecoded (d : DynamicListenerEntry) : Option Listener :=
  (d.activeState.bind ActiveState.listener).bind fun a => a.decodeResult.toOption

/-- Spec-side view of a static entry's contribution on a fully
successful extraction. -/
def statDecoded (s : StaticListenerEntry) : Option Listener :=
  s.listener.bind fun a => a.decodeResult.toOption

/-- The decode error carried by a payload, if any: `none` when the
payload is absent or unmarshals fine, `some msg` when unmarshalling it
fails with `msg`. -/
def payloadDecodeError : Option AnyListener → Option String
  | none => none
  | some a =>
    match a.decodeResult with
    | .error e => some e
    | .ok _ => none

/-! Concrete sample data, used to instantiate the theorems below on
closed inputs. -/

def sampleHTTPFilter : EnvoyFilter := ⟨HTTPListener, none⟩

def sampleTCPFilter : EnvoyFilter := ⟨TCPListener, some "cluster: outbound|9000"⟩

def sampleBlackHoleFilter : EnvoyFilter := ⟨TCPListener, some "BlackHoleCluster"⟩

def sampleHTTPListener : Listener := ⟨⟨"10.0.0.1", 8080⟩, [⟨[sampleHTTPFilter]⟩]⟩

def sampleTCPListener : Listener := ⟨⟨"10.0.0.2", 9000⟩, [⟨[sampleTCPFilter]⟩]⟩

def sampleBlackHoleListener : Listener := ⟨⟨"10.0.0.3", 9001⟩, [⟨[sampleBlackHoleFilter]⟩]⟩

def sampleDump : ListenerConfigDump :=
  ⟨[⟨some ⟨some ⟨.ok sampleHTTPListener⟩⟩⟩], [⟨some ⟨.ok sampleTCPListener⟩⟩]⟩

def sampleWriter : ConfigWriter := ⟨some ⟨.ok sampleDump⟩⟩

def sampleBadEntry : DynamicListenerEntry := ⟨some ⟨some ⟨.error "bad"⟩⟩⟩

def sampleFailWriter : ConfigWriter := ⟨some ⟨.ok ⟨[sampleBadEntry], []⟩⟩⟩

def samplePayloadlessDump : ListenerConfigDump :=
  ⟨[⟨none⟩, ⟨some ⟨none⟩⟩], [⟨none⟩]⟩

def samplePayloadlessWriter : ConfigWriter := ⟨some ⟨.ok samplePayloadlessDump⟩⟩

/-! Classifier lemmas: the loop of `retrieveListenerType` computes the
spec's two counters. -/

theorem http_listener_ne_tcp_listener : HTTPListener ≠ TCPListener := by
  decide

theorem tcp_listener_ne_http_listener : TCPListener ≠ HTTPListener := by
  decide

theorem countFilterStep_eq (acc : Nat × Nat) (f : EnvoyFilter) :
    countFilterStep acc f =
      (acc.1 + (if isHTTPFilter f then 1 else 0),
       acc.2 + (if isQualifyingTCPFilter f then 1 else 0)) := by
  unfold countFilterStep isHTTPFilter isQualifyingTCPFilter
  by_cases h1 : f.name = HTTPListener
  · simp [h1, http_listener_ne_tcp_listener]
  · by_cases h2 : f.name = TCPListener
    · by_cases h3 : strContains f.typedConfigValue BlackHoleCluster
      · simp [h1, h2, h3, tcp_listener_ne_http_listener]
      · simp [h1, h2, h3, tcp_listener_ne_http_listener]
    · simp [h1, h2]

theorem foldl_countFilterStep (fs : List EnvoyFilter) (a b : Nat) :
    fs.foldl countFilterStep (a, b) =
      (a + fs.countP isHTTPFilter, b + fs.countP isQualifyingTCPFilter) := by
  induction fs generalizing a b with
  | nil => simp
  | cons f fs ih =>
    rw [List.foldl_cons, countFilterStep_eq, ih,
      List.countP_cons, List.countP_cons]
    by_cases h1 : isHTTPFilter f <;> by_cases h2 : isQualifyingTCPFilter f <;>
      simp [h1, h2] <;> omega

theorem listenerCounts_eq_counts (l : Listener) :
    listenerCounts l = (httpCount l, tcpCount l) := by
  unfold listenerCounts httpCount tcpCount allFilters
  suffices h : ∀ (cs : List FilterChain) (a b : Nat),
      cs.foldl (fun acc filterChain => filterChain.filters.foldl countFilterStep acc) (a, b) =
        (a + (cs.foldr (fun c acc => c.filters ++ acc) []).countP isHTTPFilter,
         b + (cs.foldr (fun c acc => c.filters ++ acc) []).countP isQualifyingTCPFilter) by
    simpa using h l.filterChains 0 0
  intro cs
  induction cs with
  | nil => simp
  | cons chain cs ih =>
    intro a b
    rw [List.foldl_cons, foldl_countFilterStep, ih, List.foldr_cons,
      List.countP_append, List.countP_append]
    simp only [Prod.mk.injEq]
    omega

/-- Claim C1: for every listener, `retrieveListenerType` returns exactly
one of the four labels, chosen by the decision table over the two
counters computed from all filters in all filter chains (a filter named
`envoy.http_connection_manager` increments http-count, a filter named
`envoy.tcp_proxy` without the black-hole marker in its typed config
increments tcp-count, every other filter is ignored); it is total and
never errors. -/
theorem c1_retrieveListenerType_decision_table (l : Listener) :
    retrieveListenerType l ∈ (["HTTP", "HTTP+TCP", "TCP", "UNKNOWN"] : List String) ∧
    retrieveListenerType l =
      (if httpCount l > 0 ∧ tcpCount l = 0 then "HTTP"
       else if httpCount l > 0 ∧ tcpCount l > 0 then "HTTP+TCP"
       else if httpCount l = 0 ∧ tcpCount l > 0 then "TCP"
       else "UNKNOWN") := by
  have hc := listenerCounts_eq_counts l
  simp only [retrieveListenerType, hc]
  by_cases h1 : 0 < httpCount l
  · by_cases h2 : tcpCount l = 0
    · simp [h1, h2]
    · have h2' : 0 < tcpCount l := Nat.pos_of_ne_zero h2
      simp [h1, h2, h2']
  · have h1' : httpCount l = 0 := Nat.eq_zero_of_not_pos h1
    by_cases h2 : tcpCount l = 0
    · simp [h1', h2]
    · have h2' : 0 < tcpCount l := Nat.pos_of_ne_zero h2
      simp [h1', h2, h2']

/-- Claim C2: a TCP proxy filter whose typed config contains the
black-hole marker never increments tcp-count, no matter how many such
filters the listener has; a listener with only black-hole TCP proxy
filters and no HTTP filter classifies as UNKNOWN. -/
theorem c2_blackhole_never_counts (l : Listener)
    (h : ∀ f ∈ allFilters l, f.name = TCPListener →
      strContains f.typedConfigValue BlackHoleCluster = true) :
    tcpCount l = 0 ∧
      (httpCount l = 0 → retrieveListenerType l = "UNKNOWN") := by
  have ht : tcpCount l = 0 := by
    unfold tcpCount
    rw [List.countP_eq_zero]
    intro f hf
    by_cases h2 : f.name = TCPListener
    · have h3 := h f hf h2
      simp [isQualifyingTCPFilter, h2, h3]
    · simp [isQualifyingTCPFilter, h2]
  refine ⟨ht, fun hh => ?_⟩
  have hc := listenerCounts_eq_counts l
  simp [retrieveListenerType, hc, ht, hh]

/-- Witness for claim C2, on a listener whose only filter is a TCP proxy
filter pointing at the black-hole cluster. -/
theorem c2_blackhole_never_counts_witness :
    (∀ f ∈ allFilters sampleBlackHoleListener, f.name = TCPListener →
      strContains f.typedConfigValue BlackHoleCluster = true) ∧
    (tcpCount sampleBlackHoleListener = 0 ∧
      (httpCount sampleBlackHoleListener = 0 →
        retrieveListenerType sampleBlackHoleListener = "UNKNOWN")) :=
  ⟨by decide, c2_blackhole_never_counts sampleBlackHoleListener (by decide)⟩

/-- Claim C6: `Verify` returns true iff each specified check passes:
a non-empty address field must equal the listener's bound address
case-insensitively, a nonzero port field must equal the bound port
exactly, a non-empty type field must equal the classifier's label
case-insensitively; unset fields are skipped and any single failing
specified check makes `Verify` return false. -/
theorem c6_verify_iff_checks (lf : ListenerFilter) (l : Listener) :
    lf.Verify l = true ↔
      ((lf.Address ≠ "" → equalFold (retrieveListenerAddress l) lf.Address = true) ∧
       (lf.Port ≠ 0 → retrieveListenerPort l = lf.Port) ∧
       (lf.«Type» ≠ "" → equalFold (retrieveListenerType l) lf.«Type» = true)) := by
  unfold ListenerFilter.Verify
  by_cases hA : lf.Address = "" <;> by_cases hP : lf.Port = 0 <;>
    by_cases hT : lf.«Type» = "" <;>
    by_cases eA : equalFold (retrieveListenerAddress l) lf.Address = true <;>
    by_cases eP : retrieveListenerPort l = lf.Port <;>
    by_cases eT : equalFold (retrieveListenerType l) lf.«Type» = true <;>
    simp [hA, hP, hT, eA, eP, eT]

/-- Claim C7: the all-unset filter specification (address "", port 0,
type "") matches every listener — it is an identity on the collection,
returning true through the fast-path first branch. -/
theorem c7_empty_filter_is_identity :
    (∀ l : Listener, ListenerFilter.Verify ⟨"", 0, ""⟩ l = true) ∧
    (∀ ls : List Listener, filteredListenersOf ⟨"", 0, ""⟩ ls = ls) := by
  have hv : ∀ l : Listener, ListenerFilter.Verify ⟨"", 0, ""⟩ l = true := by
    intro l
    rfl
  refine ⟨hv, fun ls => ?_⟩
  induction ls with
  | nil => rfl
  | cons l rest ih => simp [filteredListenersOf, hv l, ih]

/-! Extraction-loop lemmas. -/

theorem processDynamicListeners_skip (d : DynamicListenerEntry)
    (rest : List DynamicListenerEntry)
    (h : d.activeState.bind ActiveState.listener = none) :
    processDynamicListeners (d :: rest) = processDynamicListeners rest := by
  simp [processDynamicListeners, h]

theorem processStaticListeners_skip (s : StaticListenerEntry)
    (rest : List StaticListenerEntry) (h : s.listener = none) :
    processStaticListeners (s :: rest) = processStaticListeners rest := by
  simp [processStaticListeners, h]

theorem processDynamicListeners_ok_eq (es : List DynamicListenerEntry)
    (ls : List Listener) (h : processDynamicListeners es = .ok ls) :
    ls = es.filterMap dynDecoded := by
  induction es generalizing ls with
  | nil =>
    simp [processDynamicListeners] at h
    simp [h]
  | cons d rest ih =>
    unfold processDynamicListeners at h
    cases hp : d.activeState.bind ActiveState.listener with
    | none =>
      rw [hp] at h
      simp only [List.filterMap_cons, dynDecoded, hp, Option.none_bind]
      exact ih ls h
    | some a =>
      rw [hp] at h
      dsimp only at h
      cases hr : a.decodeResult with
      | error e => rw [hr] at h; simp at h
      | ok lx =>
        rw [hr] at h
        dsimp only at h
        cases hrest : processDynamicListeners rest with
        | error e => rw [hrest] at h; simp at h
        | ok tail =>
          rw [hrest] at h
          simp only [Except.ok.injEq] at h
          subst h
          simp only [List.filterMap_cons, dynDecoded, hp, hr,
            Option.some_bind, Except.toOption]
          rw [ih tail hrest]

theorem processStaticListeners_ok_eq (es : List StaticListenerEntry)
    (ls : List Listener) (h : processStaticListeners es = .ok ls) :
    ls = es.filterMap statDecoded := by
  induction es generalizing ls with
  | nil =>
    simp [processStaticListeners] at h
    simp [h]
  | cons s rest ih =>
    unfold processStaticListeners at h
    cases hp : s.listener with
    | none =>
      rw [hp] at h
      simp only [List.filterMap_cons, statDecoded, hp, Option.none_bind]
      exact ih ls h
    | some a =>
      rw [hp] at h
      dsimp only at h
      cases hr : a.decodeResult with
      | error e => rw [hr] at h; simp at h
      | ok lx =>
        rw [hr] at h
        dsimp only at h
        cases hrest : processStaticListeners rest with
        | error e => rw [hrest] at h; simp at h
        | ok tail =>
          rw [hrest] at h
          simp only [Except.ok.injEq] at h
          subst h
          simp only [List.filterMap_cons, statDecoded, hp, hr,
            Option.some_bind, Except.toOption]
          rw [ih tail hrest]

theorem processDynamicListeners_all_ok (es : List DynamicListenerEntry)
    (h : ∀ d ∈ es, payloadDecodeError (d.activeState.bind ActiveState.listener) = none) :
    processDynamicListeners es = .ok (es.filterMap dynDecoded) := by
  induction es with
  | nil => simp [processDynamicListeners]
  | cons d rest ih =>
    have hd := h d (List.mem_cons_self d rest)
    have hrest := ih fun e he => h e (List.mem_cons_of_mem d he)
    cases hp : d.activeState.bind ActiveState.listener with
    | none =>
      rw [processDynamicListeners_skip d rest hp, hrest]
      simp [List.filterMap_cons, dynDecoded, hp]
    | some a =>
      rw [hp] at hd
      cases hr : a.decodeResult with
      | error e => simp [payloadDecodeError, hr] at hd
      | ok lx =>
        simp only [processDynamicListeners, hp, hr, hrest]
        simp [List.filterMap_cons, dynDecoded, hp, hr, Except.toOption]

theorem processStaticListeners_all_ok (es : List StaticListenerEntry)
    (h : ∀ s ∈ es, payloadDecodeError s.listener = none) :
    processStaticListeners es = .ok (es.filterMap statDecoded) := by
  induction es with
  | nil => simp [processStaticListeners]
  | cons s rest ih =>
    have hd := h s (List.mem_cons_self s rest)
    have hrest := ih fun e he => h e (List.mem_cons_of_mem s he)
    cases hp : s.listener with
    | none =>
      rw [processStaticListeners_skip s rest hp, hrest]
      simp [List.filterMap_cons, statDecoded, hp]
    | some a =>
      rw [hp] at hd
      cases hr : a.decodeResult with
      | error e => simp [payloadDecodeError, hr] at hd
      | ok lx =>
        simp only [processStaticListeners, hp, hr, hrest]
        simp [List.filterMap_cons, statDecoded, hp, hr, Except.toOption]

theorem processDynamicListeners_error_shape (es : List DynamicListenerEntry)
    (e : String) (h : processDynamicListeners es = .error e) :
    ∃ msg, e = "unmarshal listener: " ++ msg := by
  induction es with
  | nil => simp [processDynamicListeners] at h
  | cons d rest ih =>
    unfold processDynamicListeners at h
    cases hp : d.activeState.bind ActiveState.listener with
    | none =>
      rw [hp] at h
      exact ih h
    | some a =>
      rw [hp] at h
      dsimp only at h
      cases hr : a.decodeResult with
      | error e2 =>
        rw [hr] at h
        simp only [Except.error.injEq] at h
        exact ⟨e2, h.symm⟩
      | ok lx =>
        rw [hr] at h
        dsimp only at h
        cases hrest : processDynamicListeners rest with
        | error e2 =>
          rw [hrest] at h
          simp only [Except.error.injEq] at h
          subst h
          exact ih hrest
        | ok tail => rw [hrest] at h; simp at h

theorem processStaticListeners_error_shape (es : List StaticListenerEntry)
    (e : String) (h : processStaticListeners es = .error e) :
    ∃ msg, e = "unmarshal listener: " ++ msg := by
  induction es with
  | nil => simp [processStaticListeners] at h
  | cons s rest ih =>
    unfold processStaticListeners at h
    cases hp : s.listener with
    | none =>
      rw [hp] at h
      exact ih h
    | some a =>
      rw [hp] at h
      dsimp only at h
      cases hr : a.decodeResult with
      | error e2 =>
        rw [hr] at h
        simp only [Except.error.injEq] at h
        exact ⟨e2, h.symm⟩
      | ok lx =>
        rw [hr] at h
        dsimp only at h
        cases hrest : processStaticListeners rest with
        | error e2 =>
          rw [hrest] at h
          simp only [Except.error.injEq] at h
          subst h
          exact ih hrest
        | ok tail => rw [hrest] at h; simp at h

theorem processDynamicListeners_first_error (es1 : List DynamicListenerEntry)
    (d : DynamicListenerEntry) (es2 : List DynamicListenerEntry) (msg : String)
    (h1 : ∀ e ∈ es1, payloadDecodeError (e.activeState.bind ActiveState.listener) = none)
    (h2 : payloadDecodeError (d.activeState.bind ActiveState.listener) = some msg) :
    processDynamicListeners (es1 ++ d :: es2) =
      .error ("unmarshal listener: " ++ msg) := by
  induction es1 with
  | nil =>
    rw [List.nil_append]
    cases hp : d.activeState.bind ActiveState.listener with
    | none => rw [hp] at h2; simp [payloadDecodeError] at h2
    | some a =>
      rw [hp] at h2
      cases hr : a.decodeResult with
      | error e =>
        have he : e = msg := by simpa [payloadDecodeError, hr] using h2
        subst he
        simp [processDynamicListeners, hp, hr]
      | ok lx => simp [payloadDecodeError, hr] at h2
  | cons e es1 ih =>
    have he := h1 e (List.mem_cons_self e es1)
    have ih' := ih fun x hx => h1 x (List.mem_cons_of_mem e hx)
    rw [List.cons_append]
    cases hp : e.activeState.bind ActiveState.listener with
    | none => rw [processDynamicListeners_skip e _ hp]; exact ih'
    | some a =>
      rw [hp] at he
      cases hr : a.decodeResult with
      | error e2 => simp [payloadDecodeError, hr] at he
      | ok lx => simp [processDynamicListeners, hp, hr, ih']

theorem processStaticListeners_first_error (es1 : List StaticListenerEntry)
    (s : StaticListenerEntry) (es2 : List StaticListenerEntry) (msg : String)
    (h1 : ∀ e ∈ es1, payloadDecodeError e.listener = none)
    (h2 : payloadDecodeError s.listener = some msg) :
    processStaticListeners (es1 ++ s :: es2) =
      .error ("unmarshal listener: " ++ msg) := by
  induction es1 with
  | nil =>
    rw [List.nil_append]
    cases hp : s.listener with
    | none => rw [hp] at h2; simp [payloadDecodeError] at h2
    | some a =>
      rw [hp] at h2
      cases hr : a.decodeResult with
      | error e =>
        have he : e = msg := by simpa [payloadDecodeError, hr] using h2
        subst he
        simp [processStaticListeners, hp, hr]
      | ok lx => simp [payloadDecodeError, hr] at h2
  | cons e es1 ih =>
    have he := h1 e (List.mem_cons_self e es1)
    have ih' := ih fun x hx => h1 x (List.mem_cons_of_mem e hx)
    rw [List.cons_append]
    cases hp : e.listener with
    | none => rw [processStaticListeners_skip e _ hp]; exact ih'
    | some a =>
      rw [hp] at he
      cases hr : a.decodeResult with
      | error e2 => simp [payloadDecodeError, hr] at he
      | ok lx => simp [processStaticListeners, hp, hr, ih']

/-! String helpers for distinguishing the extractor's error messages. -/

theorem string_data_append (s t : String) : (s ++ t).data = s.data ++ t.data :=
  rfl

theorem append_head_char (s t : String) (c : Char)
    (h : s.data.head? = some c) : (s ++ t).data.head? = some c := by
  rw [string_data_append]
  cases hs : s.data with
  | nil => rw [hs] at h; cases h
  | cons a as =>
    rw [hs] at h
    simp only [List.head?_cons, Option.some.injEq] at h
    simp [List.cons_append, h]

theorem string_append_ne (s t u : String) (c c' : Char)
    (hs : s.data.head? = some c) (hu : u.data.head? = some c')
    (hne : c ≠ c') : s ++ t ≠ u := by
  intro heq
  have h1 := append_head_char s t c hs
  rw [heq, hu] at h1
  exact hne (Option.some.inj h1.symm)

theorem unmarshal_ne_not_primed (msg : String) :
    "unmarshal listener: " ++ msg ≠ "config writer has not been primed" :=
  string_append_ne _ _ _ 'u' 'c' rfl rfl (by decide)

theorem unmarshal_ne_no_listeners (msg : String) :
    "unmarshal listener: " ++ msg ≠ "no listeners found" :=
  string_append_ne _ _ _ 'u' 'n' rfl rfl (by decide)

theorem listener_dump_ne_not_primed (msg : String) :
    "listener dump: " ++ msg ≠ "config writer has not been primed" :=
  string_append_ne _ _ _ 'l' 'c' rfl rfl (by decide)

theorem listener_dump_ne_no_listeners (msg : String) :
    "listener dump: " ++ msg ≠ "no listeners found" :=
  string_append_ne _ _ _ 'l' 'n' rfl rfl (by decide)

theorem retrieve_unfold_ok_dump (c : ConfigWriter) (cd : ConfigDumpWrapper)
    (ld : ListenerConfigDump) (h1 : c.configDump = some cd)
    (h2 : cd.GetListenerConfigDump = .ok ld) :
    c.retrieveSortedListenerSlice =
      match processDynamicListeners ld.dynamicListeners with
      | .error e => .error e
      | .ok dyn =>
        match processStaticListeners ld.staticListeners with
        | .error e => .error e
        | .ok stat =>
          if (dyn ++ stat).isEmpty then .error "no listeners found"
          else .ok (dyn ++ stat) := by
  simp only [ConfigWriter.retrieveSortedListenerSlice, h1, h2]

/-- Claim C3: `retrieveSortedListenerSlice` fails with the "not primed"
error exactly when the config-dump object is unset, fails with the "no
listeners found" error exactly when the dump is present and structurally
valid but the merged decoded collection is empty, and on success the
returned collection is non-empty. -/
theorem c3_retrieve_error_conditions (c : ConfigWriter) :
    (c.retrieveSortedListenerSlice = .error "config writer has not been primed" ↔
      c.configDump = none) ∧
    (c.retrieveSortedListenerSlice = .error "no listeners found" ↔
      ∃ cd listenerDump, c.configDump = some cd ∧
        cd.GetListenerConfigDump = .ok listenerDump ∧
        processDynamicListeners listenerDump.dynamicListeners = .ok [] ∧
        processStaticListeners listenerDump.staticListeners = .ok []) ∧
    (∀ ls, c.retrieveSortedListenerSlice = .ok ls → ls ≠ []) := by
  refine ⟨?_, ?_, ?_⟩
  · cases hc : c.configDump with
    | none => simp [ConfigWriter.retrieveSortedListenerSlice, hc]
    | some cd =>
      constructor
      · intro h
        exfalso
        cases hg : cd.GetListenerConfigDump with
        | error e =>
          simp only [ConfigWriter.retrieveSortedListenerSlice, hc, hg,
            Except.error.injEq] at h
          exact listener_dump_ne_not_primed e h
        | ok ld =>
          rw [retrieve_unfold_ok_dump c cd ld hc hg] at h
          cases hd : processDynamicListeners ld.dynamicListeners with
          | error e =>
            rw [hd] at h
            simp only [Except.error.injEq] at h
            obtain ⟨msg, hm⟩ := processDynamicListeners_error_shape _ _ hd
            exact unmarshal_ne_not_primed msg (hm ▸ h)
          | ok dyn =>
            rw [hd] at h
            dsimp only at h
            cases hs : processStaticListeners ld.staticListeners with
            | error e =>
              rw [hs] at h
              simp only [Except.error.injEq] at h
              obtain ⟨msg, hm⟩ := processStaticListeners_error_shape _ _ hs
              exact unmarshal_ne_not_primed msg (hm ▸ h)
            | ok stat =>
              rw [hs] at h
              dsimp only at h
              by_cases hemp : (dyn ++ stat).isEmpty
              · rw [if_pos hemp] at h
                simp only [Except.error.injEq] at h
                exact absurd h (by decide)
              · rw [if_neg hemp] at h
                simp at h
      · intro h
        exact absurd h (by simp)
  · constructor
    · intro h
      cases hc : c.configDump with
      | none =>
        simp only [ConfigWriter.retrieveSortedListenerSlice, hc,
          Except.error.injEq] at h
        exact absurd h (by decide)
      | some cd =>
        cases hg : cd.GetListenerConfigDump with
        | error e =>
          simp only [ConfigWriter.retrieveSortedListenerSlice, hc, hg,
            Except.error.injEq] at h
          exact absurd h (listener_dump_ne_no_listeners e)
        | ok ld =>
          rw [retrieve_unfold_ok_dump c cd ld hc hg] at h
          cases hd : processDynamicListeners ld.dynamicListeners with
          | error e =>
            rw [hd] at h
            simp only [Except.error.injEq] at h
            obtain ⟨msg, hm⟩ := processDynamicListeners_error_shape _ _ hd
            exact absurd (hm ▸ h) (unmarshal_ne_no_listeners msg)
          | ok dyn =>
            rw [hd] at h
            dsimp only at h
            cases hs : processStaticListeners ld.staticListeners with
            | error e =>
              rw [hs] at h
              simp only [Except.error.injEq] at h
              obtain ⟨msg, hm⟩ := processStaticListeners_error_shape _ _ hs
              exact absurd (hm ▸ h) (unmarshal_ne_no_listeners msg)
            | ok stat =>
              rw [hs] at h
              dsimp only at h
              by_cases hemp : (dyn ++ stat).isEmpty
              · rw [List.isEmpty_iff, List.append_eq_nil] at hemp
                obtain ⟨he1, he2⟩ := hemp
                subst he1
                subst he2
                exact ⟨cd, ld, rfl, hg, hd, hs⟩
              · rw [if_neg hemp] at h
                simp at h
    · rintro ⟨cd, ld, h1, h2, hdyn, hstat⟩
      rw [retrieve_unfold_ok_dump c cd ld h1 h2, hdyn]
      dsimp only
      rw [hstat]
      dsimp only
      simp
  · intro ls h hnil
    subst hnil
    cases hc : c.configDump with
    | none =>
      simp only [ConfigWriter.retrieveSortedListenerSlice, hc] at h
      exact absurd h (by simp)
    | some cd =>
      cases hg : cd.GetListenerConfigDump with
      | error e =>
        simp only [ConfigWriter.retrieveSortedListenerSlice, hc, hg] at h
        exact absurd h (by simp)
      | ok ld =>
        rw [retrieve_unfold_ok_dump c cd ld hc hg] at h
        cases hd : processDynamicListeners ld.dynamicListeners with
        | error e => rw [hd] at h; simp at h
        | ok dyn =>
          rw [hd] at h
          dsimp only at h
          cases hs : processStaticListeners ld.staticListeners with
          | error e => rw [hs] at h; simp at h
          | ok stat =>
            rw [hs] at h
            dsimp only at h
            by_cases hemp : (dyn ++ stat).isEmpty
            · rw [if_pos hemp] at h
              simp at h
            · rw [if_neg hemp] at h
              simp only [Except.ok.injEq] at h
              exact hemp (by simp [h])

/-- Witness for claim C3: the empty config writer hits the "not primed"
condition, and a dump whose entries are all payload-less realizes the
"no listeners found" biconditional. -/
theorem c3_retrieve_error_conditions_witness :
    ((⟨none⟩ : ConfigWriter).retrieveSortedListenerSlice =
        .error "config writer has not been primed" ↔
      (⟨none⟩ : ConfigWriter).configDump = none) ∧
    (samplePayloadlessWriter.retrieveSortedListenerSlice =
        .error "no listeners found" ↔
      ∃ cd listenerDump, samplePayloadlessWriter.configDump = some cd ∧
        cd.GetListenerConfigDump = .ok listenerDump ∧
        processDynamicListeners listenerDump.dynamicListeners = .ok [] ∧
        processStaticListeners listenerDump.staticListeners = .ok []) :=
  ⟨(c3_retrieve_error_conditions ⟨none⟩).1,
   (c3_retrieve_error_conditions samplePayloadlessWriter).2.1⟩

/-- Claim C4: on success the extracted collection is all
dynamic-derived listeners first and then all static-derived listeners,
each group in the encounter order of its source section; despite its
name, `retrieveSortedListenerSlice` performs no sorting by any key. -/
theorem c4_dynamic_then_static_encounter_order (c : ConfigWriter)
    (cd : ConfigDumpWrapper) (listenerDump : ListenerConfigDump)
    (ls : List Listener) (h1 : c.configDump = some cd)
    (h2 : cd.GetListenerConfigDump = .ok listenerDump)
    (h3 : c.retrieveSortedListenerSlice = .ok ls) :
    ls = listenerDump.dynamicListeners.filterMap dynDecoded ++
      listenerDump.staticListeners.filterMap statDecoded := by
  rw [retrieve_unfold_ok_dump c cd listenerDump h1 h2] at h3
  cases hd : processDynamicListeners listenerDump.dynamicListeners with
  | error e => rw [hd] at h3; simp at h3
  | ok dyn =>
    rw [hd] at h3
    dsimp only at h3
    cases hs : processStaticListeners listenerDump.staticListeners with
    | error e => rw [hs] at h3; simp at h3
    | ok stat =>
      rw [hs] at h3
      dsimp only at h3
      by_cases hemp : (dyn ++ stat).isEmpty
      · rw [if_pos hemp] at h3
        simp at h3
      · rw [if_neg hemp] at h3
        simp only [Except.ok.injEq] at h3
        subst h3
        rw [processDynamicListeners_ok_eq _ _ hd,
          processStaticListeners_ok_eq _ _ hs]

/-- Witness for claim C4: a dump with one dynamic HTTP listener and one
static TCP listener extracts to exactly that concatenation. -/
theorem c4_dynamic_then_static_encounter_order_witness :
    sampleWriter.retrieveSortedListenerSlice =
      .ok [sampleHTTPListener, sampleTCPListener] ∧
    [sampleHTTPListener, sampleTCPListener] =
      sampleDump.dynamicListeners.filterMap dynDecoded ++
        sampleDump.staticListeners.filterMap statDecoded :=
  ⟨rfl,
   c4_dynamic_then_static_encounter_order sampleWriter ⟨.ok sampleDump⟩
     sampleDump [sampleHTTPListener, sampleTCPListener] rfl rfl rfl⟩

/-- Claim C5: when some entry's listener payload fails to decode (all
earlier entries of its section being skippable or decodable, and for a
static failure the whole dynamic section decodable), extraction returns
the wrapped decode error of that first failing entry, whatever the later
entries are: no collection is produced and no malformed entry is
silently skipped. -/
theorem c5_first_decode_error_is_fatal (c : ConfigWriter)
    (cd : ConfigDumpWrapper) (listenerDump : ListenerConfigDump)
    (h1 : c.configDump = some cd)
    (h2 : cd.GetListenerConfigDump = .ok listenerDump) :
    (∀ es1 d es2 msg, listenerDump.dynamicListeners = es1 ++ d :: es2 →
      (∀ e ∈ es1, payloadDecodeError (e.activeState.bind ActiveState.listener) = none) →
      payloadDecodeError (d.activeState.bind ActiveState.listener) = some msg →
      c.retrieveSortedListenerSlice = .error ("unmarshal listener: " ++ msg)) ∧
    (∀ ss1 s ss2 msg,
      (∀ e ∈ listenerDump.dynamicListeners,
        payloadDecodeError (e.activeState.bind ActiveState.listener) = none) →
      listenerDump.staticListeners = ss1 ++ s :: ss2 →
      (∀ e ∈ ss1, payloadDecodeError e.listener = none) →
      payloadDecodeError s.listener = some msg →
      c.retrieveSortedListenerSlice = .error ("unmarshal listener: " ++ msg)) := by
  constructor
  · intro es1 d es2 msg hsplit hok hfail
    have herr := processDynamicListeners_first_error es1 d es2 msg hok hfail
    rw [← hsplit] at herr
    rw [retrieve_unfold_ok_dump c cd listenerDump h1 h2, herr]
  · intro ss1 s ss2 msg hdynok hsplit hok hfail
    have hdone := processDynamicListeners_all_ok listenerDump.dynamicListeners hdynok
    have herr := processStaticListeners_first_error ss1 s ss2 msg hok hfail
    rw [← hsplit] at herr
    rw [retrieve_unfold_ok_dump c cd listenerDump h1 h2, hdone]
    dsimp only
    rw [herr]

/-- Witness for claim C5: a dump whose single dynamic entry fails to
decode with message "bad" makes extraction fail with the wrapped decode
error. -/
theorem c5_first_decode_error_is_fatal_witness :
    sampleFailWriter.retrieveSortedListenerSlice =
      .error ("unmarshal listener: " ++ "bad") :=
  (c5_first_decode_error_is_fatal sampleFailWriter
      ⟨.ok ⟨[sampleBadEntry], []⟩⟩ ⟨[sampleBadEntry], []⟩ rfl rfl).1
    [] sampleBadEntry [] "bad" rfl (by simp) rfl

/-- Claim C10: a dynamic entry whose active state or active listener
payload is absent, and a static entry whose listener payload is absent,
are silently skipped; a dump containing only such payload-less entries
fails with the "no listeners found" error rather than a decode error. -/
theorem c10_payloadless_entries_skipped :
    (∀ (d : DynamicListenerEntry) (rest : List DynamicListenerEntry),
      d.activeState.bind ActiveState.listener = none →
      processDynamicListeners (d :: rest) = processDynamicListeners rest) ∧
    (∀ (s : StaticListenerEntry) (rest : List StaticListenerEntry),
      s.listener = none →
      processStaticListeners (s :: rest) = processStaticListeners rest) ∧
    (∀ (c : ConfigWriter) (cd : ConfigDumpWrapper)
      (listenerDump : ListenerConfigDump),
      c.configDump = some cd → cd.GetListenerConfigDump = .ok listenerDump →
      (∀ d ∈ listenerDump.dynamicListeners,
        d.activeState.bind ActiveState.listener = none) →
      (∀ s ∈ listenerDump.staticListeners, s.listener = none) →
      c.retrieveSortedListenerSlice = .error "no listeners found") := by
  refine ⟨processDynamicListeners_skip, processStaticListeners_skip, ?_⟩
  intro c cd listenerDump h1 h2 hdyn hstat
  have hdok : processDynamicListeners listenerDump.dynamicListeners = .ok [] := by
    rw [processDynamicListeners_all_ok listenerDump.dynamicListeners
      (fun d hd => by rw [hdyn d hd]; rfl)]
    congr 1
    rw [List.filterMap_eq_nil_iff]
    intro d hd
    simp [dynDecoded, hdyn d hd]
  have hsok : processStaticListeners listenerDump.staticListeners = .ok [] := by
    rw [processStaticListeners_all_ok listenerDump.staticListeners
      (fun s hs => by rw [hstat s hs]; rfl)]
    congr 1
    rw [List.filterMap_eq_nil_iff]
    intro s hs
    simp [statDecoded, hstat s hs]
  rw [retrieve_unfold_ok_dump c cd listenerDump h1 h2, hdok]
  dsimp only
  rw [hsok]
  dsimp only
  rfl

/-- Witness for claim C10: a dump with two payload-less dynamic entries
and one payload-less static entry fails with "no listeners found". -/
theorem c10_payloadless_entries_skipped_witness :
    samplePayloadlessWriter.retrieveSortedListenerSlice =
      .error "no listeners found" :=
  c10_payloadless_entries_skipped.2.2 samplePayloadlessWriter
    ⟨.ok samplePayloadlessDump⟩ samplePayloadlessDump rfl rfl
    (by
      intro d hd
      simp only [samplePayloadlessDump, List.mem_cons, List.not_mem_nil,
        or_false, List.mem_singleton] at hd
      rcases hd with h | h <;> subst h <;> rfl)
    (by
      intro s hs
      simp only [samplePayloadlessDump, List.mem_singleton] at hs
      subst hs
      rfl)

theorem summaryRows_eq_filter_map (filter : ListenerFilter) (ls : List Listener) :
    summaryRows filter ls = (ls.filter fun l => filter.Verify l).map summaryRow := by
  induction ls with
  | nil => rfl
  | cons l rest ih =>
    by_cases h : filter.Verify l <;> simp [summaryRows, h, ih]

theorem filteredListenersOf_eq_filter (filter : ListenerFilter) (ls : List Listener) :
    filteredListenersOf filter ls = ls.filter fun l => filter.Verify l := by
  induction ls with
  | nil => rfl
  | cons l rest ih =>
    by_cases h : filter.Verify l <;> simp [filteredListenersOf, h, ih]

/-- Claim C8: on a successfully extracted collection,
`PrintListenerSummary` writes the literal header line and then exactly
one row per listener passing the filter, in the collection's order, each
row being the bound address, the bound port in decimal, and the
classification label — no re-sorting, grouping, or deduplication. -/
theorem c8_summary_is_header_then_rows (c : ConfigWriter)
    (filter : ListenerFilter) (ls : List Listener)
    (h : c.retrieveSortedListenerSlice = .ok ls) :
    c.PrintListenerSummary filter =
      .ok ("ADDRESS\tPORT\tTYPE" ::
        (ls.filter fun l => filter.Verify l).map fun l =>
          retrieveListenerAddress l ++ "\t" ++
            toString (retrieveListenerPort l) ++ "\t" ++
            retrieveListenerType l) := by
  simp only [ConfigWriter.PrintListenerSummary,
    ConfigWriter.setupListenerConfigWriter, h]
  rw [summaryRows_eq_filter_map]
  rfl

/-- Witness for claim C8: the sample dump, with the all-unset filter,
renders the header and one row per listener in extraction order. -/
theorem c8_summary_is_header_then_rows_witness :
    sampleWriter.retrieveSortedListenerSlice =
      .ok [sampleHTTPListener, sampleTCPListener] ∧
    sampleWriter.PrintListenerSummary ⟨"", 0, ""⟩ =
      .ok ("ADDRESS\tPORT\tTYPE" ::
        ([sampleHTTPListener, sampleTCPListener].filter fun l =>
            ListenerFilter.Verify ⟨"", 0, ""⟩ l).map fun l =>
          retrieveListenerAddress l ++ "\t" ++
            toString (retrieveListenerPort l) ++ "\t" ++
            retrieveListenerType l) :=
  ⟨rfl,
   c8_summary_is_header_then_rows sampleWriter ⟨"", 0, ""⟩
     [sampleHTTPListener, sampleTCPListener] rfl⟩

/-- Claim C9: on a successfully extracted collection,
`PrintListenerDump` either prints the serialization of the entire
filtered collection (produced with the 4-space indent) followed by a
trailing newline, or, when serialization fails, returns the wrapped
error with nothing printed — there is no partial output counted as
success. -/
theorem c9_dump_all_or_nothing
    (marshalIndent : String → List Listener → Except String String)
    (c : ConfigWriter) (filter : ListenerFilter) (ls : List Listener)
    (h : c.retrieveSortedListenerSlice = .ok ls) :
    (∀ out, marshalIndent "    " (filteredListenersOf filter ls) = .ok out →
      c.PrintListenerDump marshalIndent filter = .ok (out ++ "\n")) ∧
    (∀ e, marshalIndent "    " (filteredListenersOf filter ls) = .error e →
      c.PrintListenerDump marshalIndent filter =
        .error ("failed to marshal listeners: " ++ e)) := by
  constructor
  · intro out hm
    simp [ConfigWriter.PrintListenerDump,
      ConfigWriter.setupListenerConfigWriter, h, hm]
  · intro e hm
    simp [ConfigWriter.PrintListenerDump,
      ConfigWriter.setupListenerConfigWriter, h, hm]

/-- Witness for claim C9: with a serializer that succeeds the dump
renderer prints the block plus newline; with one that fails it returns
the wrapped error. -/
theorem c9_dump_all_or_nothing_witness :
    ConfigWriter.PrintListenerDump (fun _ _ => .ok "[]") sampleWriter
        ⟨"", 0, ""⟩ = .ok ("[]" ++ "\n") ∧
    ConfigWriter.PrintListenerDump (fun _ _ => .error "nope") sampleWriter
        ⟨"", 0, ""⟩ = .error ("failed to marshal listeners: " ++ "nope") :=
  ⟨(c9_dump_all_or_nothing (fun _ _ => .ok "[]") sampleWriter ⟨"", 0, ""⟩
      [sampleHTTPListener, sampleTCPListener] rfl).1 "[]" rfl,
   (c9_dump_all_or_nothing (fun _ _ => .error "nope") sampleWriter ⟨"", 0, ""⟩
      [sampleHTTPListener, sampleTCPListener] rfl).2 "nope" rfl⟩
